import Mathlib

/-!
Verification of the session & dispatch orchestration layer of the
browser-automation server (`browser_use/api/standalone_server.py`).

The Python handlers are shallowly embedded as pure Lean functions.
External collaborators (the browser engine, the language-model client,
the `Agent` class from the installed browser-use library, the random
source of `secrets`) are out of scope per the specification; their
observable outcomes enter the embedding as explicit oracle parameters
(e.g. whether `session.stop()` raises, which character index a call of
`secrets.choice` picks, what a classification probe of a frame returns).

Python dictionaries are embedded as function maps `String → Option α`,
matching dict semantics (unique keys, overwrite on assignment,
`del` removes the binding).
-/

set_option autoImplicit false

namespace StandaloneServer

/-- A Python `dict` keyed by strings. -/
abbrev Dict (α : Type) := String → Option α

namespace Dict

/-- The empty dict. -/
def empty {α : Type} : Dict α := fun _ => none

/-- Assignment `d[k] = v`, overwriting any previous binding. -/
def set {α : Type} (d : Dict α) (k : String) (v : α) : Dict α :=
  fun k' => if k' = k then some v else d k'

/-- Deletion `del d[k]`; callers in the source always guard it with a
membership test, so the missing-key error case never occurs. -/
def del {α : Type} (d : Dict α) (k : String) : Dict α :=
  fun k' => if k' = k then none else d k'

/-- Membership test `k in d`. -/
def contains {α : Type} (d : Dict α) (k : String) : Bool :=
  (d k).isSome

end Dict

/-- Result of a request handler as seen at the HTTP boundary:
either a success payload or an `HTTPException` with a status code
and a detail string. -/
inductive HTTPResult (α : Type) where
  | ok (value : α)
  | error (status_code : Nat) (detail : String)
deriving DecidableEq

/-- Rendering `str(e)` of a `starlette` `HTTPException` re-raised through a blanket
`except Exception` handler: the original status code and detail are folded
into the detail string of the new 500 error. -/
def httpExceptionStr (status_code : Nat) (detail : String) : String :=
  toString status_code ++ ": " ++ detail

/-- A browser session as registered by the server: the configuration that
`create_session` passes to `BrowserProfile`.  The live handle itself is an
external collaborator. -/
structure BrowserSession where
  headless : Bool
  allowed_domains : List String
  wait_between_actions : ℚ
deriving DecidableEq

/-- The run history exposed by the agent field `state.history`
(external `browser-use` object; fields as read by
`get_agent_task_status`). -/
structure AgentHistory where
  steps_completed : Nat
  is_successful : Option Bool
  total_duration : ℚ
  urls_visited : List String
  final_result : Option String
  errors : List String
deriving DecidableEq

/-- An `Agent` object from the external browser-use library, as observed by
this server: `running` models the `hasattr`/`getattr` probe of the
`running` attribute (`none` when the attribute is absent) and `history`
models the `hasattr` probes of `state` and `state.history`. -/
structure Agent where
  running : Option Bool
  history : Option AgentHistory
deriving DecidableEq

/-- One credential record `{"email": ..., "password": ...}`. -/
structure AccountRecord where
  email : String
  password : String
deriving DecidableEq

/-- Embedding of `ServerState`, the global mutable state of the server. `controllers`
and `file_systems` store opaque objects, so only key membership is
modelled (`Unit` values). -/
structure ServerState where
  browser_sessions : Dict BrowserSession
  agents : Dict Agent
  controllers : Dict Unit
  file_systems : Dict Unit
  account_storage : Dict (Dict (Dict AccountRecord))

/-- The state of a freshly constructed `ServerState()`. -/
def ServerState.init : ServerState :=
  { browser_sessions := Dict.empty
    agents := Dict.empty
    controllers := Dict.empty
    file_systems := Dict.empty
    account_storage := Dict.empty }

/-! ## Unified dispatcher: routing table and GET listing -/

/-- The `available_tools` list returned by the `GET /mcp` endpoint
(`mcp_get_endpoint`), verbatim in order. -/
def available_tools : List String :=
  [ "create_browser_session",
    "list_browser_sessions",
    "close_browser_session",
    "browser_navigate",
    "browser_click",
    "browser_type",
    "browser_key",
    "browser_scroll",
    "browser_get_state",
    "browser_extract_content",
    "browser_go_back",
    "browser_list_tabs",
    "browser_switch_tab",
    "browser_close_tab",
    "run_agent_task",
    "retry_with_browser_use_agent",
    "get_agent_task_status",
    "generate_account_credentials",
    "retrieve_account_credentials" ]

/-- Whether `mcp_endpoint` routes `tool_name` to a handler: `true` for the
names matched by its `if`/`elif` chain, `false` for the final `else`
branch, which raises `Unknown tool`. -/
def mcp_routable (tool_name : String) : Bool :=
  tool_name == "create_browser_session" ||
  tool_name == "list_browser_sessions" ||
  tool_name == "close_browser_session" ||
  tool_name == "browser_navigate" ||
  tool_name == "browser_click" ||
  tool_name == "browser_type" ||
  tool_name == "browser_key" ||
  tool_name == "browser_scroll" ||
  tool_name == "browser_get_state" ||
  tool_name == "browser_extract_content" ||
  tool_name == "browser_go_back" ||
  tool_name == "browser_list_tabs" ||
  tool_name == "browser_switch_tab" ||
  tool_name == "browser_close_tab" ||
  tool_name == "browse_agent" ||
  tool_name == "retry_browse_agent" ||
  tool_name == "get_agent_task_status" ||
  tool_name == "select_dropdown_option" ||
  tool_name == "generate_account_credentials" ||
  tool_name == "retrieve_account_credentials"

/-! ## Session registry -/

/-- Embedding of `CreateSessionRequest` with its pydantic fields. -/
structure CreateSessionRequest where
  session_id : Option String
  headless : Bool
  allowed_domains : List String
  wait_between_actions : ℚ

/-- Embedding of `SessionResponse`. -/
structure SessionResponse where
  session_id : String
  status : String
  message : String
deriving DecidableEq

/-- Python `s or default` for an optional string: `None` and the empty
string are falsy. -/
def pyOrStr (s : Option String) (dflt : String) : String :=
  match s with
  | some v => if v = "" then dflt else v
  | none => dflt

/-- Embedding of `create_session`.  Here `nowMs` stands for `int(time.time() * 1000)` and
`startError` is the oracle for the external `session.start()` call
(`some e` means it raised with message `e`).  The whole handler body runs
inside a `try` whose blanket `except Exception` rewraps every exception —
including the 400 already-exists `HTTPException` the handler itself raises —
as a 500 whose detail is `str(e)`. -/
def create_session (st : ServerState) (req : CreateSessionRequest)
    (nowMs : Nat) (startError : Option String) :
    HTTPResult SessionResponse × ServerState :=
  let session_id := pyOrStr req.session_id ("session_" ++ toString nowMs)
  if (st.browser_sessions session_id).isSome then
    (.error 500 (httpExceptionStr 400 ("Session " ++ session_id ++ " already exists")), st)
  else
    match startError with
    | some e => (.error 500 e, st)
    | none =>
      let session : BrowserSession :=
        { headless := req.headless
          allowed_domains := req.allowed_domains
          wait_between_actions := req.wait_between_actions }
      let st' := { st with
        browser_sessions := st.browser_sessions.set session_id session
        controllers := st.controllers.set session_id ()
        file_systems := st.file_systems.set session_id () }
      (.ok { session_id := session_id
             status := "created"
             message := "Browser session " ++ session_id ++ " created successfully" }, st')

/-- The default configuration `get_session` uses when it auto-creates the
`"default"` session. -/
def default_create_request : CreateSessionRequest :=
  { session_id := some "default"
    headless := true
    allowed_domains := []
    wait_between_actions := 1/2 }

/-- Embedding of `get_session`, the registry get-or-create helper.  It takes no
configuration argument at all: an existing session is returned as stored.
A missing `"default"` session is created via `create_session` with
built-in defaults; any other missing id raises `HTTPException(404)`,
which propagates out of `get_session` unwrapped. -/
def get_session (st : ServerState) (session_id : String)
    (nowMs : Nat) (startError : Option String) :
    HTTPResult BrowserSession × ServerState :=
  match st.browser_sessions session_id with
  | some s => (.ok s, st)
  | none =>
    if session_id = "default" then
      match create_session st default_create_request nowMs startError with
      | (.ok _, st') =>
        match st'.browser_sessions "default" with
        | some s => (.ok s, st')
        | none => (.error 500 "KeyError: default", st')
      | (.error c d, st') => (.error c d, st')
    else
      (.error 404 ("Session " ++ session_id ++ " not found"), st)

/-- Second half of `close_session`: stop the browser handle and delete the
registry entries.  `stopError` is the oracle for the external
`session.stop()` call; if it raises, the blanket `except Exception`
handler turns it into a 500 and the deletions below it never run. -/
def close_session_stop (st : ServerState) (session_id : String)
    (stopError : Option String) : HTTPResult String × ServerState :=
  match stopError with
  | some e => (.error 500 e, st)
  | none =>
    let st' := { st with
      browser_sessions := st.browser_sessions.del session_id
      controllers := st.controllers.del session_id
      file_systems := st.file_systems.del session_id }
    (.ok ("Session " ++ session_id ++ " closed successfully"), st')

/-- Embedding of `close_session`.  The entire body, including its own
`HTTPException(404)` for an unknown id, runs inside a `try` whose blanket
`except Exception` rewraps any exception as a 500.  `agentCloseError` is
the oracle for `agents[session_id].close()`; an exception there escapes
before any registry entry is deleted. -/
def close_session (st : ServerState) (session_id : String)
    (agentCloseError stopError : Option String) :
    HTTPResult String × ServerState :=
  if (st.browser_sessions session_id).isNone then
    (.error 500 (httpExceptionStr 404 ("Session " ++ session_id ++ " not found")), st)
  else
    match st.agents session_id, agentCloseError with
    | some _, some e => (.error 500 e, st)
    | some _, none =>
      close_session_stop { st with agents := st.agents.del session_id } session_id stopError
    | none, _ => close_session_stop st session_id stopError

/-! ## Credential vault -/

/-- Value of `string.ascii_letters`. -/
def ascii_letters : String :=
  "abcdefghijklmnopqrstuvwxyzABCDEFGHIJKLMNOPQRSTUVWXYZ"

/-- Value of `string.digits`. -/
def ascii_digits : String := "0123456789"

/-- The alphabet of `ServerState.generate_password`:
`string.ascii_letters + string.digits + "!@#$%^&*"`. -/
def password_alphabet : String := ascii_letters ++ ascii_digits ++ "!@#$%^&*"

/-- The default `length` parameter of `generate_password`. -/
def default_password_length : Nat := 16

/-- Embedding of `ServerState.generate_password`: one character per
position, each an element of the alphabet picked by `secrets.choice`.
The random source is the oracle `choice`; `secrets.choice(alphabet)`
always returns an element of the alphabet, modelled as indexing by
`choice i` reduced modulo the alphabet size. -/
def generate_password (choice : Nat → Nat) (length : Nat) : String :=
  ((List.range length).map (fun i =>
    password_alphabet.toList.getD (choice i % password_alphabet.toList.length) 'a')).asString

/-- Python `s.replace(pat, rep)` on character lists (all non-overlapping
occurrences, left to right), with the list length as structural fuel;
`pat` is nonempty at every call site. -/
def replaceAllAux (pat rep : List Char) : Nat → List Char → List Char
  | _, [] => []
  | 0, s => s
  | fuel + 1, c :: cs =>
    if pat ≠ [] ∧ pat.isPrefixOf (c :: cs) then
      rep ++ replaceAllAux pat rep fuel ((c :: cs).drop pat.length)
    else
      c :: replaceAllAux pat rep fuel cs

/-- Python `s.replace(pat, rep)` for strings. -/
def pyReplace (s pat rep : String) : String :=
  (replaceAllAux pat.toList rep.toList s.toList.length s.toList).asString

/-- Python `s.split(sep)[0]`: the prefix before the first separator. -/
def pySplitHead (s : String) (sep : Char) : String :=
  (s.toList.takeWhile (fun c => c ≠ sep)).asString

/-- The website normalization applied by both credential endpoints:
strip the https or http scheme prefix, strip every `www.` occurrence,
then keep only the part before the first slash. -/
def normalize_website (website : String) : String :=
  pySplitHead (pyReplace (pyReplace (pyReplace website "https://" "") "http://" "") "www." "") '/'

/-- Embedding of `ServerState.store_account`: creates the missing nested dicts, then
assigns `{"email": email, "password": password}` at
`storage[session_id][website][email]` (last write wins).  The write-through
`_save_accounts_to_file` touches only external storage. -/
def store_account (storage : Dict (Dict (Dict AccountRecord)))
    (session_id website email password : String) :
    Dict (Dict (Dict AccountRecord)) :=
  let bySession := (storage session_id).getD Dict.empty
  let byWebsite := (bySession website).getD Dict.empty
  storage.set session_id
    (bySession.set website (byWebsite.set email { email := email, password := password }))

/-- Embedding of `ServerState.get_account`, that is
`storage.get(session_id, {}).get(website, {}).get(email)`. -/
def get_account (storage : Dict (Dict (Dict AccountRecord)))
    (session_id website email : String) : Option AccountRecord :=
  (((storage session_id).getD Dict.empty website).getD Dict.empty) email

/-- Shared shape of `PasswordGenerationRequest` and
`AccountRetrievalRequest` (the same three fields). -/
structure CredentialRequest where
  website : String
  email : String
  session_id : String

/-- The success payload of both credential endpoints. -/
structure CredentialsResponse where
  website : String
  email : String
  password : String
  session_id : String
  message : String
deriving DecidableEq

/-- Embedding of `generate_account_credentials`: normalizes the website, generates a
password with the default length, stores the triple, and returns the
stored values. -/
def generate_account_credentials (st : ServerState) (req : CredentialRequest)
    (choice : Nat → Nat) : HTTPResult CredentialsResponse × ServerState :=
  let website := normalize_website req.website
  let email := req.email
  let password := generate_password choice default_password_length
  let st' := { st with
    account_storage := store_account st.account_storage req.session_id website email password }
  (.ok { website := website
         email := email
         password := password
         session_id := req.session_id
         message := "Generated and stored credentials for " ++ website }, st')

/-- Embedding of `retrieve_account_credentials`: normalizes the website and looks the
triple up; a miss raises `HTTPException(404)`, which the `except` clause
of this handler re-raises unchanged (it checks `isinstance` against
`HTTPException`). -/
def retrieve_account_credentials (st : ServerState) (req : CredentialRequest) :
    HTTPResult CredentialsResponse :=
  let website := normalize_website req.website
  match get_account st.account_storage req.session_id website req.email with
  | none =>
    .error 404 ("No credentials found for " ++ req.email ++ " on " ++ website ++
      " in session " ++ req.session_id)
  | some cred =>
    .ok { website := website
          email := cred.email
          password := cred.password
          session_id := req.session_id
          message := "Retrieved credentials for " ++ req.email ++ " on " ++ website }

/-! ## Task orchestrator -/

/-- Embedding of `AgentTaskRequest`. -/
structure AgentTaskRequest where
  task : String
  max_steps : Nat
  model : String
  session_id : String

/-- Embedding of `TaskResponse`. -/
structure TaskResponse where
  task_id : String
  status : String
  message : String
  session_id : String
deriving DecidableEq

/-- Embedding of `run_agent_task`.  The handler resolves the session,
checks `OPENAI_API_KEY`, constructs an external `Agent` (`freshAgent` is
the oracle for the object the external constructor yields), registers it
under a fresh `task_id` derived from `nowMs`, schedules the background
run, and returns.  The whole body runs inside a `try` whose blanket
`except Exception` rewraps every exception — including the 404 from
`get_session` and the 400 for a missing API key — as a 500 whose detail
is `str(e)`. -/
def run_agent_task (st : ServerState) (req : AgentTaskRequest)
    (apiKeySet : Bool) (freshAgent : Agent) (nowMs : Nat)
    (startError : Option String) : HTTPResult TaskResponse × ServerState :=
  match get_session st req.session_id nowMs startError with
  | (.error c d, st') => (.error 500 (httpExceptionStr c d), st')
  | (.ok _, st') =>
    if apiKeySet then
      let task_id := "task_" ++ toString nowMs
      let st2 := { st' with agents := st'.agents.set task_id freshAgent }
      (.ok { task_id := task_id
             status := "started"
             message := "Agent task " ++ task_id ++ " started"
             session_id := req.session_id }, st2)
    else
      (.error 500 (httpExceptionStr 400 "OPENAI_API_KEY environment variable not set"), st')

/-- The response dict assembled by `get_agent_task_status`; every field
beyond `task_id` and `status` is present only when the agent exposes a
run history (`none` models an absent key). -/
structure TaskStatusResponse where
  task_id : String
  status : String
  steps_completed : Option Nat
  is_successful : Option (Option Bool)
  total_duration : Option ℚ
  urls_visited : Option (List String)
  final_result : Option String
  errors : Option (List String)
deriving DecidableEq

/-- Embedding of `get_agent_task_status`.  This GET route has no
`try`/`except`, so its 404 for an unknown task id reaches the caller
unwrapped.  The reported status is computed as `"running"` when
`getattr(agent, "running", False)` is truthy and `"completed"`
otherwise; `final_result` is included only when truthy and `errors`
only when non-empty. -/
def get_agent_task_status (st : ServerState) (task_id : String) :
    HTTPResult TaskStatusResponse :=
  match st.agents task_id with
  | none => .error 404 ("Task " ++ task_id ++ " not found")
  | some agent =>
    let is_running := agent.running.getD false
    let status := if is_running then "running" else "completed"
    match agent.history with
    | none =>
      .ok { task_id := task_id, status := status
            steps_completed := none, is_successful := none
            total_duration := none, urls_visited := none
            final_result := none, errors := none }
    | some h =>
      .ok { task_id := task_id, status := status
            steps_completed := some h.steps_completed
            is_successful := some h.is_successful
            total_duration := some h.total_duration
            urls_visited := some h.urls_visited
            final_result :=
              match h.final_result with
              | some r => if r = "" then none else some r
              | none => none
            errors := if h.errors = [] then none else some h.errors }

/-! ## Frame resolver (dropdown and ARIA-menu selection) -/

/-- The element reference returned by
`browser_session.get_dom_element_by_index` (external browser state). -/
structure DomElement where
  xpath : String
  tag_name : String

/-- What the classification probe (`element_info_js` evaluated in one
frame) reports for the target xpath, together with the outcome of the
action the handler then attempts in that frame:
* `absent` — the probe returned `null` (xpath matched nothing);
* `selectFound` — a native select; `availableOptions` are the trimmed
  option texts and `selectedValue` is the value string Playwright
  reports when `select_option(label=text)` matches (it raises on a
  miss, which the per-frame `except` absorbs);
* `ariaFound` — role menu/listbox/combobox; `availableOptions` are the
  trimmed `textContent` values of the `menuitem`/`option` nodes;
* `unsupported` — any other tag/role (`found: false` with an error);
* `evalError` — `frame.evaluate` itself raised. -/
inductive FrameProbe where
  | absent
  | selectFound (availableOptions : List String) (selectedValue : String)
  | ariaFound (availableOptions : List String)
  | unsupported (error : String)
  | evalError (error : String)

/-- Outcome of one iteration of the frame loop: `some msg` when the
iteration returns a success message, `none` when it falls through to the
next frame (element absent, unsupported, probe error, no matching option,
or a raised selection attempt absorbed by the per-frame `except`). -/
def frame_attempt (text : String) : FrameProbe → Option String
  | .absent => none
  | .selectFound opts v =>
    if text ∈ opts then
      some ("selected option " ++ text ++ " with value " ++ v)
    else
      none
  | .ariaFound items =>
    if text ∈ items then some ("Clicked menu item: " ++ text) else none
  | .unsupported _ => none
  | .evalError _ => none

/-- The frame loop of `select_dropdown_option`: frames are tried in the
order `page.frames` lists them; the first success returns immediately,
and exhausting all frames yields the non-fatal could-not-select message
(returned as a normal `{"message": ...}` payload, not an exception). -/
def select_dropdown_loop (text : String) : List FrameProbe → String
  | [] => "Could not select option \x27" ++ text ++ "\x27 in any frame"
  | f :: fs =>
    match frame_attempt text f with
    | some msg => msg
    | none => select_dropdown_loop text fs

/-- Result of a handler body before the dispatcher boundary: a normal
return value, an `HTTPException` it raised, or a plain Python exception
that escaped it. -/
inductive HandlerOutcome (α : Type) where
  | ok (value : α)
  | httpError (status_code : Nat) (detail : String)
  | raised (message : String)
deriving DecidableEq

/-- Embedding of the `select_dropdown_option` handler.  `get_session`
runs first (its `HTTPException` propagates unwrapped); a missing element
index raises a plain `Exception` (not an `HTTPException`); otherwise the
frame loop runs inside a `try` and both its outcomes are normal 200
returns.  `get_dom_element` and `frames` are oracles for the external
browser state of the resolved session. -/
def select_dropdown_option (st : ServerState) (session_id : String)
    (index : Nat) (text : String)
    (get_dom_element : Nat → Option DomElement) (frames : List FrameProbe)
    (nowMs : Nat) (startError : Option String) :
    HandlerOutcome String × ServerState :=
  match get_session st session_id nowMs startError with
  | (.error c d, st') => (.httpError c d, st')
  | (.ok _, st') =>
    match get_dom_element index with
    | none =>
      (.raised ("Element index " ++ toString index ++
        " does not exist - retry or use alternative actions"), st')
    | some _ => (.ok (select_dropdown_loop text frames), st')

/-- The `select_dropdown_option` tool as seen through `POST /mcp`: the
dispatcher re-raises an `HTTPException` unchanged and wraps any other
exception as a 500. -/
def mcp_select_dropdown_option (st : ServerState) (session_id : String)
    (index : Nat) (text : String)
    (get_dom_element : Nat → Option DomElement) (frames : List FrameProbe)
    (nowMs : Nat) (startError : Option String) :
    HTTPResult String × ServerState :=
  match select_dropdown_option st session_id index text get_dom_element frames nowMs startError with
  | (.ok m, st') => (.ok m, st')
  | (.httpError c d, st') => (.error c d, st')
  | (.raised m, st') => (.error 500 m, st')

/-! ## Observers and concrete states used by the theorems below -/

/-- Status string of a task-status response, when the request succeeded. -/
def taskStatusString : HTTPResult TaskStatusResponse → Option String
  | .ok r => some r.status
  | .error _ _ => none

/-- Boolean version of the per-frame success condition of the frame loop:
a frame yields a selection exactly when the probe classified the element
as a native select whose option texts contain `text`, or as an ARIA
widget one of whose item texts equals `text`. -/
def frame_matches (text : String) : FrameProbe → Bool
  | .absent => false
  | .selectFound opts _ => decide (text ∈ opts)
  | .ariaFound items => decide (text ∈ items)
  | .unsupported _ => false
  | .evalError _ => false

/-- The session built when `get_session` auto-creates `"default"`:
the body of `create_session` applied to the built-in defaults. -/
def default_session : BrowserSession :=
  { headless := true, allowed_domains := [], wait_between_actions := 1/2 }

/-- A registered session used as a concrete test fixture. -/
def session0 : BrowserSession :=
  { headless := true, allowed_domains := [], wait_between_actions := 0 }

/-- A server state holding exactly the session `"s"`. -/
def state_s : ServerState :=
  { ServerState.init with
    browser_sessions := Dict.empty.set "s" session0
    controllers := Dict.empty.set "s" ()
    file_systems := Dict.empty.set "s" () }

/-- An external agent object with neither a `running` attribute nor a
run history, as an oracle for a freshly constructed `Agent`. -/
def freshAgent0 : Agent := { running := none, history := none }

/-- An agent whose background run has finished with an execution error:
it is not running and its history records one error. -/
def erroredAgent : Agent :=
  { running := some false
    history := some
      { steps_completed := 3
        is_successful := some false
        total_duration := 0
        urls_visited := []
        final_result := none
        errors := ["Agent task failed: boom"] } }

/-- A server state holding the session `"s"` and, bound to the same id,
an agent task (as `close_session` expects when a run-agent call used the
session id as its agent key). -/
def state_s_agent : ServerState :=
  { state_s with agents := Dict.empty.set "s" freshAgent0 }

/-- A server state holding only the finished, errored agent task
`"task_1"`. -/
def state_errored_task : ServerState :=
  { ServerState.init with agents := Dict.empty.set "task_1" erroredAgent }

/-- A server state holding exactly the session `"s1"`. -/
def state_s1 : ServerState :=
  { ServerState.init with
    browser_sessions := Dict.empty.set "s1" session0
    controllers := Dict.empty.set "s1" ()
    file_systems := Dict.empty.set "s1" () }

/-- A concrete agent-task request against session `"s"`. -/
def agentReq7 : AgentTaskRequest :=
  { task := "fill the form", max_steps := 100, model := "gpt-4o", session_id := "s" }

/-- A concrete element reference. -/
def el0 : DomElement := { xpath := "select[1]", tag_name := "select" }

/-! ## Helper lemmas -/

@[simp] theorem Dict.get_set_self {α : Type} (d : Dict α) (k : String) (v : α) :
    Dict.set d k v k = some v := by
  simp [Dict.set]

@[simp] theorem Dict.get_set_ne {α : Type} (d : Dict α) (k k' : String) (v : α)
    (h : k' ≠ k) : Dict.set d k v k' = d k' := by
  simp [Dict.set, h]

@[simp] theorem Dict.get_del_self {α : Type} (d : Dict α) (k : String) :
    Dict.del d k k = none := by
  simp [Dict.del]

@[simp] theorem Dict.get_del_ne {α : Type} (d : Dict α) (k k' : String)
    (h : k' ≠ k) : Dict.del d k k' = d k' := by
  simp [Dict.del, h]

theorem List.getD_mem_of_default_mem {l : List Char} {n : Nat} {d : Char}
    (hd : d ∈ l) : l.getD n d ∈ l := by
  rcases h : l.get? n with _ | x
  · simpa [List.getD_eq_getElem?_getD, ← List.get?_eq_getElem?, h] using hd
  · have hx : x ∈ l := List.get?_mem h
    simpa [List.getD_eq_getElem?_getD, ← List.get?_eq_getElem?, h] using hx

theorem frame_attempt_eq_none {text : String} {f : FrameProbe}
    (h : frame_matches text f = false) : frame_attempt text f = none := by
  cases f <;> simp_all [frame_matches, frame_attempt]

theorem select_dropdown_loop_no_match {text : String} {frames : List FrameProbe}
    (h : ∀ f ∈ frames, frame_matches text f = false) :
    select_dropdown_loop text frames =
      "Could not select option \x27" ++ text ++ "\x27 in any frame" := by
  induction frames with
  | nil => rfl
  | cons f fs ih =>
    have hf := frame_attempt_eq_none (h f (by simp))
    have hfs := ih (fun g hg => h g (by simp [hg]))
    simp [select_dropdown_loop, hf, hfs]

/-! ## C1 -/

/-- C1: the GET-style tool listing does NOT equal the set of names
routable by the dispatcher.  `select_dropdown_option`, `browse_agent`
and `retry_browse_agent` are routable but unlisted, while
`run_agent_task` and `retry_with_browser_use_agent` are listed but are
rejected by the dispatcher as unknown tools. -/
theorem listing_dispatch_set_mismatch :
    mcp_routable "select_dropdown_option" = true ∧
    "select_dropdown_option" ∉ available_tools ∧
    mcp_routable "browse_agent" = true ∧
    "browse_agent" ∉ available_tools ∧
    mcp_routable "retry_browse_agent" = true ∧
    "retry_browse_agent" ∉ available_tools ∧
    "run_agent_task" ∈ available_tools ∧
    mcp_routable "run_agent_task" = false ∧
    "retry_with_browser_use_agent" ∈ available_tools ∧
    mcp_routable "retry_with_browser_use_agent" = false := by
  decide

/-! ## C2 -/

/-- C2 counterexample: on the concrete state holding only session `"s"`,
a failing browser-stop step makes `close_session` propagate the failure
as a 500-class error and leave `"s"` registered, contradicting the claim
that the registry entry is removed regardless and failures are not
propagated. -/
theorem close_session_stop_failure_propagates :
    close_session state_s "s" none (some "browser stop failed") =
      (.error 500 "browser stop failed", state_s) ∧
    state_s.browser_sessions "s" = some session0 := by
  exact ⟨rfl, rfl⟩

/-- C2 amended: for a registered session id, `close_session` removes the
entry and returns success only when the agent-close step (when an agent
is bound) and the browser-stop step both succeed; a failing step is
propagated as a 500-class error and the registry entry is left in
place. -/
theorem close_session_teardown_behaviour (st : ServerState) (sid : String)
    (hreg : (st.browser_sessions sid).isSome = true) (e : String) :
    ((close_session st sid none (some e)).1 = HTTPResult.error 500 e ∧
     (close_session st sid none (some e)).2.browser_sessions sid =
       st.browser_sessions sid) ∧
    ((st.agents sid).isSome = true →
      close_session st sid (some e) none = (HTTPResult.error 500 e, st)) ∧
    ((close_session st sid none none).1 =
       HTTPResult.ok ("Session " ++ sid ++ " closed successfully") ∧
     (close_session st sid none none).2.browser_sessions sid = none) := by
  rcases Option.isSome_iff_exists.mp hreg with ⟨s0, hs0⟩
  have hne : (st.browser_sessions sid).isNone = false := by simp [hs0]
  refine ⟨?_, ?_, ?_⟩
  · cases hag : st.agents sid <;>
      simp [close_session, hne, hag, close_session_stop]
  · intro hag'
    rcases Option.isSome_iff_exists.mp hag' with ⟨a, ha⟩
    simp [close_session, hne, ha]
  · cases hag : st.agents sid <;>
      simp [close_session, hne, hag, close_session_stop]

/-- C2 amended, witness: the three cases evaluated on the concrete state
holding session `"s"` with a bound agent. -/
theorem close_session_teardown_behaviour_witness :
    ((close_session state_s_agent "s" none (some "boom")).1 =
       HTTPResult.error 500 "boom" ∧
     (close_session state_s_agent "s" none (some "boom")).2.browser_sessions "s" =
       state_s_agent.browser_sessions "s") ∧
    ((state_s_agent.agents "s").isSome = true →
      close_session state_s_agent "s" (some "boom") none =
        (HTTPResult.error 500 "boom", state_s_agent)) ∧
    ((close_session state_s_agent "s" none none).1 =
       HTTPResult.ok "Session s closed successfully" ∧
     (close_session state_s_agent "s" none none).2.browser_sessions "s" = none) :=
  close_session_teardown_behaviour state_s_agent "s" (by decide) "boom"

/-! ## C3 -/

theorem taskStatus_of_registered (st : ServerState) (tid : String) (ag : Agent)
    (h : st.agents tid = some ag) :
    taskStatusString (get_agent_task_status st tid) =
      some (if ag.running.getD false then "running" else "completed") := by
  cases hh : ag.history <;> simp [get_agent_task_status, h, taskStatusString, hh]

/-- C3 counterexample: a finished agent task whose run history records an
execution error is reported with status `"completed"`, not `"failed"`:
the status computation of `get_agent_task_status` never produces
`"failed"`, contradicting the claim that a failed run is reported as
such. -/
theorem errored_task_reports_completed :
    get_agent_task_status state_errored_task "task_1" =
      .ok { task_id := "task_1", status := "completed"
            steps_completed := some 3, is_successful := some (some false)
            total_duration := some 0, urls_visited := some []
            final_result := none, errors := some ["Agent task failed: boom"] } := by
  rfl

/-- C3 amended: submitting a task for an existing session registers the
agent under the returned task id before returning, so polling that id
immediately succeeds; the reported status is `"running"` exactly when
the agent object exposes a truthy `running` attribute and `"completed"`
otherwise — `"failed"` is never reported. -/
theorem run_agent_task_registers_before_return (st : ServerState)
    (req : AgentTaskRequest) (ag : Agent) (nowMs : Nat)
    (hreg : (st.browser_sessions req.session_id).isSome = true) :
    (run_agent_task st req true ag nowMs none).1 =
      HTTPResult.ok
        { task_id := "task_" ++ toString nowMs
          status := "started"
          message := "Agent task " ++ ("task_" ++ toString nowMs) ++ " started"
          session_id := req.session_id } ∧
    (taskStatusString (get_agent_task_status
        (run_agent_task st req true ag nowMs none).2
        ("task_" ++ toString nowMs)) = some "running" ∨
     taskStatusString (get_agent_task_status
        (run_agent_task st req true ag nowMs none).2
        ("task_" ++ toString nowMs)) = some "completed") ∧
    taskStatusString (get_agent_task_status
        (run_agent_task st req true ag nowMs none).2
        ("task_" ++ toString nowMs)) ≠ some "failed" ∧
    (taskStatusString (get_agent_task_status
        (run_agent_task st req true ag nowMs none).2
        ("task_" ++ toString nowMs)) = some "running" ↔
      ag.running = some true) := by
  rcases Option.isSome_iff_exists.mp hreg with ⟨s0, hs0⟩
  have hrun : run_agent_task st req true ag nowMs none =
      (HTTPResult.ok
        { task_id := "task_" ++ toString nowMs
          status := "started"
          message := "Agent task " ++ ("task_" ++ toString nowMs) ++ " started"
          session_id := req.session_id },
       { st with agents := st.agents.set ("task_" ++ toString nowMs) ag }) := by
    simp [run_agent_task, get_session, hs0]
  have hst : taskStatusString (get_agent_task_status
      (run_agent_task st req true ag nowMs none).2
      ("task_" ++ toString nowMs)) =
      some (if ag.running.getD false then "running" else "completed") := by
    rw [hrun]
    exact taskStatus_of_registered _ _ ag (Dict.get_set_self ..)
  refine ⟨by rw [hrun], ?_, ?_, ?_⟩
  · rw [hst]
    by_cases hr : ag.running.getD false = true
    · left; simp [hr]
    · right; simp [hr]
  · rw [hst]
    by_cases hr : ag.running.getD false = true <;> simp [hr]
  · rw [hst]
    cases hb : ag.running with
    | none => simp
    | some b => cases b <;> simp

/-- C3 amended, witness: the no-failed-status conjunct at a concrete
state, request and fresh agent. -/
theorem run_agent_task_registers_before_return_witness :
    taskStatusString (get_agent_task_status
        (run_agent_task state_s agentReq7 true freshAgent0 7 none).2
        ("task_" ++ toString 7)) ≠ some "failed" :=
  (run_agent_task_registers_before_return state_s agentReq7 freshAgent0 7
    (by decide)).2.2.1

/-! ## C4 -/

/-- C4: case analysis of `get_session`: an existing id is returned
unchanged (the helper accepts no configuration argument at all, so none
is ever re-applied); a missing `"default"` id is created with the
built-in defaults and registered; any other missing id fails with a 404
not-found error, leaving the state unchanged. -/
theorem get_session_case_analysis (st : ServerState) (sid : String)
    (nowMs : Nat) (startError : Option String) :
    (∀ s, st.browser_sessions sid = some s →
        get_session st sid nowMs startError = (.ok s, st)) ∧
    (st.browser_sessions "default" = none →
        (get_session st "default" nowMs none).1 = .ok default_session ∧
        (get_session st "default" nowMs none).2.browser_sessions "default" =
          some default_session) ∧
    (st.browser_sessions sid = none → sid ≠ "default" →
        get_session st sid nowMs startError =
          (.error 404 ("Session " ++ sid ++ " not found"), st)) := by
  refine ⟨?_, ?_, ?_⟩
  · intro s h
    simp [get_session, h]
  · intro h
    have hid : pyOrStr (some "default") ("session_" ++ toString nowMs) = "default" := by
      have hne : ("default" : String) ≠ "" := by decide
      simp [pyOrStr, hne]
    simp [get_session, h, create_session, default_create_request, hid,
      default_session]
  · intro h hne
    simp [get_session, h, hne]

/-- C4 witness: the three cases at concrete inputs. -/
theorem get_session_case_analysis_witness :
    get_session state_s "s" 0 none = (.ok session0, state_s) ∧
    ((get_session ServerState.init "default" 0 none).1 = .ok default_session ∧
     (get_session ServerState.init "default" 0 none).2.browser_sessions "default" =
       some default_session) ∧
    get_session ServerState.init "zzz" 0 none =
      (.error 404 "Session zzz not found", ServerState.init) :=
  ⟨(get_session_case_analysis state_s "s" 0 none).1 session0 rfl,
   (get_session_case_analysis ServerState.init "default" 0 none).2.1 rfl,
   (get_session_case_analysis ServerState.init "zzz" 0 none).2.2 rfl (by decide)⟩

/-! ## C5 -/

/-- C5: evaluation at the failing input — creating a session whose id is
already registered.  The handler raises the intended 400 already-exists
`HTTPException`, but its own blanket exception handler rewraps it, so
the caller sees a 500-class internal error, not a 400-class duplicate
error; the existing session and the rest of the state are unchanged. -/
theorem duplicate_create_surfaces_as_500 :
    create_session state_s
      { session_id := some "s", headless := true, allowed_domains := []
        wait_between_actions := 1/2 } 0 none =
      (.error 500 "400: Session s already exists", state_s) ∧
    (500 : Nat) ≠ 400 :=
  ⟨rfl, by decide⟩

/-! ## C6 -/

/-- C6 counterexample: with session `"s"` registered and no element at
index 5, the dispatched `select_dropdown_option` call fails with a
500-class internal error — the plain element-not-found exception wrapped
at the dispatcher boundary — not a 404-class not-found error as the
claim states. -/
theorem missing_element_surfaces_as_500 :
    mcp_select_dropdown_option state_s "s" 5 "Blue" (fun _ => none) [] 0 none =
      (.error 500 "Element index 5 does not exist - retry or use alternative actions",
       state_s) ∧
    (500 : Nat) ≠ 404 :=
  ⟨rfl, by decide⟩

/-- C6 amended: for a registered session, an element index absent from
the current element map makes `select_dropdown_option` raise an
element-not-found exception; since it is a plain exception, the
dispatcher surfaces it as a 500-class internal error. -/
theorem missing_element_is_internal_error (st : ServerState) (sid : String)
    (index : Nat) (text : String) (gde : Nat → Option DomElement)
    (frames : List FrameProbe) (nowMs : Nat)
    (hreg : (st.browser_sessions sid).isSome = true)
    (hidx : gde index = none) :
    mcp_select_dropdown_option st sid index text gde frames nowMs none =
      (.error 500 ("Element index " ++ toString index ++
        " does not exist - retry or use alternative actions"), st) := by
  rcases Option.isSome_iff_exists.mp hreg with ⟨s0, hs0⟩
  simp [mcp_select_dropdown_option, select_dropdown_option, get_session, hs0, hidx]

/-- C6 amended, witness: the amended statement evaluated at index 7 on
the concrete state holding session `"s"`. -/
theorem missing_element_is_internal_error_witness :
    mcp_select_dropdown_option state_s "s" 7 "Blue" (fun _ => none) [] 0 none =
      (.error 500 ("Element index " ++ toString 7 ++
        " does not exist - retry or use alternative actions"), state_s) :=
  missing_element_is_internal_error state_s "s" 7 "Blue" (fun _ => none) [] 0
    (by decide) rfl

/-! ## C7 -/

/-- C7: credential round-trip with website normalization — generating
credentials for `https://www.foo.com/login` and retrieving them for
`foo.com` (same session and email) succeeds and returns exactly the
generated password, because both websites normalize to the key
`foo.com`. -/
theorem credential_roundtrip_normalized (st : ServerState) (sid email : String)
    (choice : Nat → Nat) :
    retrieve_account_credentials
        (generate_account_credentials st
          { website := "https://www.foo.com/login", email := email, session_id := sid }
          choice).2
        { website := "foo.com", email := email, session_id := sid } =
      .ok { website := "foo.com", email := email
            password := generate_password choice default_password_length
            session_id := sid
            message := "Retrieved credentials for " ++ email ++ " on " ++ "foo.com" } := by
  have h1 : normalize_website "https://www.foo.com/login" = "foo.com" := by decide
  have h2 : normalize_website "foo.com" = "foo.com" := by decide
  simp [generate_account_credentials, retrieve_account_credentials, h1, h2,
    store_account, get_account, Dict.get_set_self, Option.getD]

/-- C7 witness: the round-trip at a concrete session, email and random
source. -/
theorem credential_roundtrip_normalized_witness :
    retrieve_account_credentials
        (generate_account_credentials ServerState.init
          { website := "https://www.foo.com/login", email := "a@b.com", session_id := "s1" }
          (fun _ => 0)).2
        { website := "foo.com", email := "a@b.com", session_id := "s1" } =
      .ok { website := "foo.com", email := "a@b.com"
            password := generate_password (fun _ => 0) default_password_length
            session_id := "s1"
            message := "Retrieved credentials for " ++ "a@b.com" ++ " on " ++ "foo.com" } :=
  credential_roundtrip_normalized ServerState.init "s1" "a@b.com" (fun _ => 0)

/-! ## C8 -/

/-- C8: when the session and the element both resolve but no frame
yields a successful selection (in each frame the element is absent,
unsupported, the probe errored, or no option or item text equals the
target text), the handler returns normally with the descriptive
non-fatal could-not-select message instead of raising. -/
theorem no_frame_match_returns_nonfatal (st : ServerState) (sid : String)
    (index : Nat) (text : String) (gde : Nat → Option DomElement)
    (frames : List FrameProbe) (nowMs : Nat)
    (hreg : (st.browser_sessions sid).isSome = true)
    (el : DomElement) (hidx : gde index = some el)
    (hnm : ∀ f ∈ frames, frame_matches text f = false) :
    select_dropdown_option st sid index text gde frames nowMs none =
      (HandlerOutcome.ok
        ("Could not select option \x27" ++ text ++ "\x27 in any frame"), st) := by
  rcases Option.isSome_iff_exists.mp hreg with ⟨s0, hs0⟩
  simp [select_dropdown_option, get_session, hs0, hidx,
    select_dropdown_loop_no_match hnm]

/-- C8 witness: frames covering every non-matching case (absent element,
non-matching select options, non-matching ARIA items, unsupported
element, probe error) with target text `"Blue"`. -/
theorem no_frame_match_returns_nonfatal_witness :
    select_dropdown_option state_s "s" 3 "Blue" (fun _ => some el0)
        [FrameProbe.absent,
         FrameProbe.selectFound ["Red", "Green"] "v1",
         FrameProbe.ariaFound ["Open", "Close"],
         FrameProbe.unsupported "Element is neither a select nor an ARIA menu",
         FrameProbe.evalError "SecurityError"] 0 none =
      (HandlerOutcome.ok "Could not select option \x27Blue\x27 in any frame",
       state_s) :=
  no_frame_match_returns_nonfatal state_s "s" 3 "Blue" (fun _ => some el0) _ 0
    (by decide) el0 rfl (by decide)

/-! ## C9 -/

/-- C9: every password generated with the default length has exactly 16
characters, and each character belongs to the fixed alphabet of ASCII
letters, digits and the punctuation set `!@#$%^&*`. -/
theorem generate_password_length_and_alphabet (choice : Nat → Nat) :
    (generate_password choice default_password_length).length =
      default_password_length ∧
    ∀ c ∈ (generate_password choice default_password_length).toList,
      c ∈ password_alphabet.toList := by
  constructor
  · show ((List.range default_password_length).map _).length = default_password_length
    simp
  · intro c hc
    have hc' : c ∈ (List.range default_password_length).map
        (fun i => password_alphabet.toList.getD
          (choice i % password_alphabet.toList.length) 'a') := hc
    rcases List.mem_map.mp hc' with ⟨i, _, rfl⟩
    exact List.getD_mem_of_default_mem (by decide)

/-- C9 witness: the length conjunct at a concrete random source. -/
theorem generate_password_length_and_alphabet_witness :
    (generate_password (fun i => i) default_password_length).length =
      default_password_length :=
  (generate_password_length_and_alphabet (fun i => i)).1

/-! ## C10 -/

/-- C10: evaluation at the failing input — submitting a `browse_agent`
task for the registered session `"s1"` with `OPENAI_API_KEY` unset.  The
state is unchanged (no task id is registered, shown explicitly for the
task id the call would have generated), but the error surfaces as a
500-class error rather than the 400-class error the handler itself
raises, because the blanket exception handler rewraps it. -/
theorem missing_api_key_state_unchanged_but_500 :
    run_agent_task state_s1
      { task := "find something", max_steps := 100, model := "gpt-4o"
        session_id := "s1" } false freshAgent0 123 none =
      (.error 500 "400: OPENAI_API_KEY environment variable not set", state_s1) ∧
    (run_agent_task state_s1
      { task := "find something", max_steps := 100, model := "gpt-4o"
        session_id := "s1" } false freshAgent0 123 none).2.agents "task_123" =
      none ∧
    (500 : Nat) ≠ 400 :=
  ⟨rfl, rfl, by decide⟩

end StandaloneServer
